import Mathlib

/-!
Verification development for the TTGO falling-block game.

The game logic is shallowly embedded from the final revision of the game
source (`game.c` in its last draft: functions `tick`, `check_collisions`,
`check_player_collision`, `respawn_block`, `enable_blocks`,
`initialise_blocks`, `initialise_game`, `handleInputPacket`,
`handleTickPacket`) together with the constants of `include/core.h`.

Modelling conventions:
* C `int` fields become `Int`; the 0/1 flags `enabled` and
  `waiting_for_respawn` become `Bool` (the C code only ever stores 0 or 1
  in them and compares them against 0/1).
* `double` quantities (the millisecond delta time `dt`, and the constant
  folding in `BLOCK_HEIGHT*1.5`, `DEATH_SCREEN_DELAY = 5.0e6`,
  `(score_difference/400)*0.5`) are modelled exactly over `ℚ`/`Int`; all
  values arising are small enough that IEEE doubles represent them exactly,
  so the rational semantics coincides with the C semantics.
* `esp_timer_get_time()` (microseconds since boot) is passed in explicitly
  as `now : Int`.
* `rand()` is modelled by an oracle `rng : Nat → Nat` together with a
  call counter; `srand` seeding has no observable effect in this model.
* The process-wide statics of the C source that are not part of the
  `GameState` struct (the `last_spawned` pointer inside `respawn_block`,
  modelled as an index into the block array, and the `rand()` call
  counter) live in a separate `SpawnEnv` record, following the explicit
  ownership of state that the design notes ask for.
* `display_width`/`display_height` come from the external graphics
  library (not part of this repository); on the TTGO T-Display in the
  portrait orientation selected by `start_game` they are 135 and 240.
* Rendering functions only draw; they never mutate the game state and are
  therefore omitted.
-/

/-! ### Constants from `include/core.h` -/

def STARTING_BLOCKS : Int := 3

def MAX_BLOCKS : Nat := 15

def PLAYER_WIDTH : Int := 20

def PLAYER_HEIGHT : Int := 20

def PLAYER_VELOCITY_MULT : Int := 2

def BLOCK_WIDTH : Int := 15

def BLOCK_HEIGHT : Int := 10

/-- `DEATH_SCREEN_DELAY` is `5.0e6` microseconds; exact as an integer. -/
def DEATH_SCREEN_DELAY : Int := 5000000

def STARTING_VELOCITY : Int := 25

def MAX_VELOCITY : Int := 100

/-- Width of the external display (TTGO T-Display, portrait). -/
def display_width : Int := 135

/-- Height of the external display (TTGO T-Display, portrait). -/
def display_height : Int := 240

/-! ### Data model from `include/core.h` -/

inductive GameStatePhase where
  | PHASE_MENU
  | PHASE_DEATH
  | PHASE_GAME
deriving DecidableEq, Repr

export GameStatePhase (PHASE_MENU PHASE_DEATH PHASE_GAME)

inductive GameStateDirection where
  | DIR_LEFT
  | DIR_RIGHT
  | DIR_NONE
deriving DecidableEq, Repr

export GameStateDirection (DIR_LEFT DIR_RIGHT DIR_NONE)

structure GameBlock where
  x : Int
  y : Int
  enabled : Bool
  waiting_for_respawn : Bool
deriving DecidableEq, Repr

instance : Inhabited GameBlock := ⟨⟨0, 0, false, false⟩⟩

structure Player where
  x : Int
  y : Int
  score : Int
deriving DecidableEq, Repr

structure GameState where
  phase : GameStatePhase
  velocity : Int
  player_direction : GameStateDirection
  selection : Int
  blocks : List GameBlock
  player : Player
  auto_advance_time : Int
deriving DecidableEq, Repr

/-- Process-wide static state of `game.c` that is not part of the
`GameState` struct: the `last_spawned` pointer inside `respawn_block`
(modelled as an index into the block array) and the implicit position in
the `rand()` stream. -/
structure SpawnEnv where
  last_spawned : Option Nat
  rand_idx : Nat
deriving DecidableEq, Repr

/-! ### Game logic from the final `game.c` -/

/-- `calc_velocity`: `return ceil(vel * (dt/1000));` with `dt` in
milliseconds.  The ceiling is computed exactly over the numerator and
denominator of `dt` (using `⌈q⌉ = -⌊-q⌋` and that integer division on `ℤ`
rounds down); `calc_velocity_eq_ceil` below proves this equal to
`⌈vel * (dt / 1000)⌉`. -/
def calc_velocity (vel : Int) (dt : ℚ) : Int :=
  -(-(vel * dt.num) / (1000 * (dt.den : Int)))

/-- `check_player_collision`: returns 1 when the player and block
rectangles are not disjoint (all four disjointness tests are strict, so
rectangles that merely touch count as colliding). -/
def check_player_collision (p : Player) (b : GameBlock) : Int :=
  if p.x > b.x + BLOCK_WIDTH ∨ p.x + PLAYER_WIDTH < b.x ∨
      p.y > b.y + BLOCK_HEIGHT ∨ p.y + PLAYER_HEIGHT < b.y then 0 else 1

/-- The loop body of `check_collisions`, processing the block list left to
right while threading the player (whose score may grow), the phase and the
auto-advance deadline exactly as the C loop mutates them in place. -/
def checkLoop (now : Int) :
    List GameBlock → Player → GameStatePhase → Int →
    List GameBlock × Player × GameStatePhase × Int
  | [], p, ph, aat => ([], p, ph, aat)
  | b :: rest, p, ph, aat =>
    if b.enabled = true ∧ b.waiting_for_respawn = false then
      if check_player_collision p b = 1 then
        let r := checkLoop now rest p PHASE_DEATH (now + DEATH_SCREEN_DELAY)
        (b :: r.1, r.2)
      else if b.y > display_height then
        let r := checkLoop now rest { p with score := p.score + 100 } ph aat
        ({ b with waiting_for_respawn := true } :: r.1, r.2)
      else
        let r := checkLoop now rest p ph aat
        (b :: r.1, r.2)
    else
      let r := checkLoop now rest p ph aat
      (b :: r.1, r.2)

/-- `check_collisions`: iterates over all blocks; an enabled,
non-awaiting block that overlaps the player arms the death screen, one
whose top has passed the bottom of the display is marked awaiting respawn
and scores. -/
def check_collisions (now : Int) (s : GameState) : GameState :=
  let r := checkLoop now s.blocks s.player s.phase s.auto_advance_time
  { s with blocks := r.1, player := r.2.1, phase := r.2.2.1,
           auto_advance_time := r.2.2.2 }

/-- The guard of `respawn_block`: a respawn may proceed when there is no
recorded prior spawn, or the prior spawn is disabled or itself awaiting
respawn, or its vertical position exceeds the minimum clearance
`BLOCK_HEIGHT*1.5` below the top (since `y` is an integer, the C
comparison `y > BLOCK_HEIGHT*1.5 = 15.0` is exactly
`2*y > 3*BLOCK_HEIGHT`). -/
def respawn_allowed (bs : List GameBlock) (last : Option Nat) : Bool :=
  match last with
  | none => true
  | some j =>
    let lb := bs.getD j default
    !lb.enabled || lb.waiting_for_respawn ||
      decide (2 * lb.y > 3 * BLOCK_HEIGHT)

/-- `respawn_block` on the block at index `i`: when the `respawn_allowed`
guard holds, the block is placed at `y = -BLOCK_HEIGHT` with
`x = rand() % (display_width - BLOCK_WIDTH)`, its awaiting flag is
cleared and it becomes the recorded spawn. -/
def respawn_block (rng : Nat → Nat) (bs : List GameBlock) (e : SpawnEnv)
    (i : Nat) : List GameBlock × SpawnEnv :=
  let b := bs.getD i default
  if b.enabled = false then (bs, e)
  else
    if respawn_allowed bs e.last_spawned then
      let x : Int := (rng e.rand_idx : Int) % (display_width - BLOCK_WIDTH)
      (bs.set i { b with y := -BLOCK_HEIGHT, x := x,
                         waiting_for_respawn := false },
       { last_spawned := some i, rand_idx := e.rand_idx + 1 })
    else (bs, e)

/-- One iteration of the move/respawn loop in `tick`: an enabled block is
first respawned if it is awaiting respawn, then moved down by
`calc_velocity(velocity, dt)`. -/
def moveBlock (rng : Nat → Nat) (vel : Int) (dt : ℚ)
    (a : List GameBlock × SpawnEnv) (i : Nat) : List GameBlock × SpawnEnv :=
  let b := a.1.getD i default
  if b.enabled = true then
    let a := if b.waiting_for_respawn = true then respawn_block rng a.1 a.2 i
             else a
    let b := a.1.getD i default
    (a.1.set i { b with y := b.y + calc_velocity vel dt }, a.2)
  else a

/-- The `for(int i = 0; i < MAX_BLOCKS; i++)` move/respawn loop of
`tick`. -/
def moveBlocks (rng : Nat → Nat) (vel : Int) (dt : ℚ)
    (bs : List GameBlock) (e : SpawnEnv) : List GameBlock × SpawnEnv :=
  (List.range MAX_BLOCKS).foldl (moveBlock rng vel dt) (bs, e)

/-- `enable_blocks`: every currently-disabled block below the threshold
index becomes enabled and awaiting respawn; already-enabled blocks are
untouched. -/
def enable_blocks (toBlockIndex : Int) (bs : List GameBlock) :
    List GameBlock :=
  (bs.zip (List.range bs.length)).map fun bi =>
    if bi.1.enabled = false then
      { bi.1 with enabled := decide ((bi.2 : Int) < toBlockIndex),
                  waiting_for_respawn := decide ((bi.2 : Int) < toBlockIndex) }
    else bi.1

/-- `initialise_blocks`: every block is disabled and not awaiting respawn
(positions are left untouched). -/
def initialise_blocks (bs : List GameBlock) : List GameBlock :=
  bs.map fun b => { b with enabled := false, waiting_for_respawn := false }

/-- `initialise_game`: resets direction, velocity, selection, the player
(centre of the display, near the bottom, score 0) and the block pool. -/
def initialise_game (s : GameState) : GameState :=
  let s := { s with player_direction := DIR_NONE,
                    velocity := STARTING_VELOCITY, selection := 0 }
  let p : Player := { x := display_width / 2 - PLAYER_WIDTH / 2,
                      y := display_height - PLAYER_HEIGHT - 5, score := 0 }
  let s := { s with player := p }
  { s with blocks := enable_blocks STARTING_BLOCKS
                       (initialise_blocks s.blocks) }

/-- The player-movement-and-clamp step of `tick`. -/
def movePlayer (vel : Int) (dir : GameStateDirection) (dt : ℚ) (x : Int) :
    Int :=
  let x :=
    match dir with
    | DIR_LEFT => x - calc_velocity (vel * PLAYER_VELOCITY_MULT) dt
    | DIR_RIGHT => x + calc_velocity (vel * PLAYER_VELOCITY_MULT) dt
    | DIR_NONE => x
  if x < 0 then 0
  else if x + PLAYER_WIDTH > display_width then display_width - PLAYER_WIDTH
  else x

/-- The difficulty-scaling step of `tick`: once the score exceeds 200,
more blocks are enabled and the velocity is recomputed.  The C statement
`velocity = STARTING_VELOCITY + (score_difference/400)*0.5` computes
`(sd/400)*0.5` in `double` and truncates on assignment to `int`; for the
non-negative `sd` arising under the `score > 200` guard this is exactly
`(sd / 400) / 2` in integer arithmetic. -/
def difficultyStep (s : GameState) : GameState :=
  if s.player.score > 200 then
    let sd := s.player.score - 200
    let s := { s with blocks := enable_blocks (sd / 300 + STARTING_BLOCKS)
                                  s.blocks }
    { s with velocity := STARTING_VELOCITY + sd / 400 / 2 }
  else s

/-- `tick`: the unconditional Death auto-advance check, then (in the Game
phase only) player movement with clamping, the block move/respawn loop,
difficulty scaling and collision detection. -/
def tick (rng : Nat → Nat) (now : Int) (dt : ℚ) (s : GameState)
    (e : SpawnEnv) : GameState × SpawnEnv :=
  let s := if s.phase = PHASE_DEATH ∧ s.auto_advance_time ≤ now then
             { s with selection := 0, phase := PHASE_MENU }
           else s
  if s.phase = PHASE_GAME then
    let s := { s with player := { s.player with
                 x := movePlayer s.velocity s.player_direction dt
                        s.player.x } }
    let r := moveBlocks rng s.velocity dt s.blocks e
    let s := difficultyStep { s with blocks := r.1 }
    (check_collisions now s, r.2)
  else (s, e)

/-- `handleTickPacket`: converts the packet's microsecond payload to
milliseconds (`packet.data / 1.0e3`, written with `Rat.divInt`, which is
the same rational as `(data : ℚ) / 1000` by `Rat.divInt_eq_div`) and
ticks (rendering has no effect on the state). -/
def handleTickPacket (rng : Nat → Nat) (now : Int) (data : Int)
    (s : GameState) (e : SpawnEnv) : GameState × SpawnEnv :=
  tick rng now (Rat.divInt data 1000) s e

/-- `handleInputPacket`: inputs in the first second of runtime are
discarded; in Game the direction is stored; otherwise a non-`DIR_NONE`
input advances the menu (two presses start a game) or, on the death
screen, returns to the menu once `now ≥ auto_advance_time - 4.5e6`
(i.e. 500 ms after the death was armed). -/
def handleInputPacket (now : Int) (input : GameStateDirection)
    (s : GameState) : GameState :=
  if now < 1000000 then s
  else if s.phase = PHASE_GAME then { s with player_direction := input }
  else if input ≠ DIR_NONE then
    match s.phase with
    | PHASE_MENU =>
      let s := { s with selection := s.selection + 1 }
      if s.selection > 1 then
        initialise_game { s with selection := 0, phase := PHASE_GAME }
      else s
    | PHASE_DEATH =>
      if now ≥ s.auto_advance_time - 4500000 then
        { s with phase := PHASE_MENU }
      else s
    | PHASE_GAME => s
  else s

/-- The boot state built in `start_game`: `GameState state = {.phase =
PHASE_MENU};` (C designated initialisers zero the remaining fields; the
zero value of the direction enum is `DIR_LEFT`). -/
def bootState : GameState :=
  { phase := PHASE_MENU, velocity := 0, player_direction := DIR_LEFT,
    selection := 0,
    blocks := List.replicate MAX_BLOCKS default,
    player := { x := 0, y := 0, score := 0 }, auto_advance_time := 0 }

/-- Boot value of the process-wide statics: `last_spawned` is the NULL
pointer and no `rand()` call has happened. -/
def bootEnv : SpawnEnv := { last_spawned := none, rand_idx := 0 }

/-- States reachable from boot by processing any sequence of Tick and
Input packets (at arbitrary observation times, delta times and `rand()`
streams). -/
inductive Reachable : GameState × SpawnEnv → Prop where
  | boot : Reachable (bootState, bootEnv)
  | tickStep (rng : Nat → Nat) (now data : Int) (se : GameState × SpawnEnv)
      (h : Reachable se) : Reachable (handleTickPacket rng now data se.1 se.2)
  | inputStep (now : Int) (input : GameStateDirection)
      (se : GameState × SpawnEnv) (h : Reachable se) :
      Reachable (handleInputPacket now input se.1, se.2)

/-! ### Characterisation of the collision loop -/

/-- A block that the collision check of one tick finds colliding with the
player: enabled, not awaiting respawn, and overlapping. -/
def collidesB (p : Player) (b : GameBlock) : Bool :=
  b.enabled && !b.waiting_for_respawn &&
    decide (check_player_collision p b = 1)

/-- A block that the collision check of one tick scores: enabled, not
awaiting respawn, not overlapping the player, and with its top edge past
the bottom of the display. -/
def scoresB (p : Player) (b : GameBlock) : Bool :=
  b.enabled && !b.waiting_for_respawn &&
    !decide (check_player_collision p b = 1) && decide (b.y > display_height)

/-! ### Specification predicates and concrete states -/

/-- Invariant tying the velocity to the score within a game session: the
score is non-negative, the velocity is exactly `STARTING_VELOCITY` until
the score passes 200, and afterwards it is floored at `STARTING_VELOCITY`
and bounded by the value of the difficulty formula at the current
score. -/
def VelocityInv (s : GameState) : Prop :=
  0 ≤ s.player.score ∧
  (s.player.score ≤ 200 → s.velocity = STARTING_VELOCITY) ∧
  (200 < s.player.score →
    STARTING_VELOCITY ≤ s.velocity ∧
    s.velocity ≤ STARTING_VELOCITY + (s.player.score - 200) / 400 / 2)

/-- A `rand()` stream that always returns 0. -/
def rng0 : Nat → Nat := fun _ => 0

/-- A `rand()` stream that always returns 57 (placing respawned blocks
directly above the player). -/
def rng57 : Nat → Nat := fun _ => 57

/-- Menu state after one button press at 1.5 s. -/
def menuPressed : GameState := handleInputPacket 1500000 DIR_LEFT bootState

/-- Session start: the second menu press starts a fresh game (this is
`initialise_game` applied with `phase := PHASE_GAME`). -/
def sessionStart : GameState := handleInputPacket 1600000 DIR_LEFT menuPressed

/-- One in-game tick with a 100-second delta (100000000 µs packets), used
to drive the score up quickly. -/
def tickBig (se : GameState × SpawnEnv) : GameState × SpawnEnv :=
  handleTickPacket rng0 2000000 100000000 se.1 se.2

/-- A death state reached from boot: two menu presses, then one tick in
which a block respawns directly above the player and lands on it. -/
def deathSE : GameState × SpawnEnv :=
  handleTickPacket rng57 3000000 9000000 sessionStart bootEnv

/-- A simple death-screen state with the deadline armed at 8 s. -/
def deathQuick : GameState :=
  { bootState with phase := PHASE_DEATH, auto_advance_time := 8000000 }

/-- An in-game state with a single block resting exactly on the player. -/
def c2State : GameState :=
  { bootState with
    phase := PHASE_GAME,
    player := { x := 57, y := 215, score := 0 },
    blocks := [{ x := 57, y := 215, enabled := true,
                 waiting_for_respawn := false }] }

/-- A one-block pool whose block is enabled and awaiting respawn. -/
def c6Blocks : List GameBlock :=
  [{ x := 0, y := 100, enabled := true, waiting_for_respawn := true }]

theorem check_player_collision_score (p : Player) (n : Int) (b : GameBlock) :
    check_player_collision { p with score := n } b =
      check_player_collision p b := rfl

theorem collidesB_score (p : Player) (n : Int) :
    collidesB { p with score := n } = collidesB p := rfl

theorem scoresB_score (p : Player) (n : Int) :
    scoresB { p with score := n } = scoresB p := rfl

/-- Closed form of the collision loop: colliding blocks force the Death
phase and arm the auto-advance deadline, scoring blocks are marked
awaiting respawn and add 100 points each, and the two cases are mutually
exclusive per block. -/
theorem checkLoop_eq (now : Int) (bs : List GameBlock) (p : Player)
    (ph : GameStatePhase) (aat : Int) :
    checkLoop now bs p ph aat =
      (bs.map fun b =>
        if scoresB p b then { b with waiting_for_respawn := true } else b,
       { p with score := p.score + 100 * (bs.countP (scoresB p) : Int) },
       (if bs.any (collidesB p) then PHASE_DEATH else ph),
       (if bs.any (collidesB p) then now + DEATH_SCREEN_DELAY else aat)) := by
  induction bs generalizing p ph aat with
  | nil => simp [checkLoop]
  | cons b rest ih =>
    by_cases h1 : b.enabled = true ∧ b.waiting_for_respawn = false
    · by_cases h2 : check_player_collision p b = 1
      · have hc : collidesB p b = true := by
          simp [collidesB, h1.1, h1.2, h2]
        have hs : scoresB p b = false := by
          simp [scoresB, h1.1, h1.2, h2]
        simp [checkLoop, h1, h2, ih, hc, hs]
      · by_cases h3 : b.y > display_height
        · have hc : collidesB p b = false := by
            simp [collidesB, h2]
          have hs : scoresB p b = true := by
            simp [scoresB, h1.1, h1.2, h2, h3]
          simp only [checkLoop, if_pos h1, if_neg h2, if_pos h3, ih,
            scoresB_score, collidesB_score, List.map_cons, List.countP_cons,
            List.any_cons, hs, hc, Bool.false_or, if_true, Prod.mk.injEq]
          refine ⟨trivial, ?_, trivial⟩
          simp only [Player.mk.injEq, true_and]
          push_cast
          ring
        · have hc : collidesB p b = false := by
            simp [collidesB, h2]
          have hs : scoresB p b = false := by
            simp [scoresB, h2, h3]
          simp [checkLoop, h1, h2, h3, ih, hc, hs]
    · have hc : collidesB p b = false := by
        cases hb : b.enabled <;> cases hw : b.waiting_for_respawn <;>
          simp_all [collidesB]
      have hs : scoresB p b = false := by
        cases hb : b.enabled <;> cases hw : b.waiting_for_respawn <;>
          simp_all [scoresB]
      simp [checkLoop, h1, ih, hc, hs]

/-- The exact-ceiling computation in `calc_velocity` agrees with the
specification formula `ceil(vel * (dt/1000))`. -/
theorem calc_velocity_eq_ceil (vel : Int) (dt : ℚ) :
    calc_velocity vel dt = ⌈(vel : ℚ) * (dt / 1000)⌉ := by
  have hd : ((dt.den : ℚ)) ≠ 0 := by exact_mod_cast dt.den_nz
  have hnum : ((dt.num : ℚ)) = dt * dt.den :=
    (div_eq_iff hd).mp (Rat.num_div_den dt)
  have h : ((-(vel * dt.num) : ℤ) : ℚ) / ((1000 * dt.den : ℕ) : ℚ) =
      -((vel : ℚ) * (dt / 1000)) := by
    push_cast
    field_simp
    rw [hnum]
    ring
  rw [← neg_neg (⌈(vel : ℚ) * (dt / 1000)⌉), ← Int.floor_neg, ← h,
    Rat.floor_intCast_div_natCast, calc_velocity]
  push_cast
  ring_nf

/-! ### Projection lemmas for the collision check and the tick -/

theorem check_collisions_selection (now : Int) (s : GameState) :
    (check_collisions now s).selection = s.selection := rfl

theorem check_collisions_velocity (now : Int) (s : GameState) :
    (check_collisions now s).velocity = s.velocity := rfl

theorem check_collisions_player (now : Int) (s : GameState) :
    (check_collisions now s).player =
      { s.player with score := s.player.score +
          100 * (s.blocks.countP (scoresB s.player) : Int) } := by
  simp [check_collisions, checkLoop_eq]

theorem check_collisions_phase (now : Int) (s : GameState) :
    (check_collisions now s).phase =
      if s.blocks.any (collidesB s.player) then PHASE_DEATH else s.phase := by
  simp [check_collisions, checkLoop_eq]

theorem check_collisions_aat (now : Int) (s : GameState) :
    (check_collisions now s).auto_advance_time =
      if s.blocks.any (collidesB s.player) then now + DEATH_SCREEN_DELAY
      else s.auto_advance_time := by
  simp [check_collisions, checkLoop_eq]

theorem check_collisions_blocks (now : Int) (s : GameState) :
    (check_collisions now s).blocks =
      s.blocks.map fun b =>
        if scoresB s.player b then { b with waiting_for_respawn := true }
        else b := by
  simp [check_collisions, checkLoop_eq]

theorem difficultyStep_player (s : GameState) :
    (difficultyStep s).player = s.player := by
  unfold difficultyStep
  split <;> rfl

theorem difficultyStep_selection (s : GameState) :
    (difficultyStep s).selection = s.selection := by
  unfold difficultyStep
  split <;> rfl

theorem difficultyStep_phase (s : GameState) :
    (difficultyStep s).phase = s.phase := by
  unfold difficultyStep
  split <;> rfl

theorem difficultyStep_velocity (s : GameState) :
    (difficultyStep s).velocity =
      if s.player.score > 200 then
        STARTING_VELOCITY + (s.player.score - 200) / 400 / 2
      else s.velocity := by
  unfold difficultyStep
  split <;> simp [*]

theorem tick_of_menu (rng : Nat → Nat) (now : Int) (dt : ℚ) (s : GameState)
    (e : SpawnEnv) (h : s.phase = PHASE_MENU) : tick rng now dt s e = (s, e) := by
  simp [tick, h]

theorem tick_death_expired (rng : Nat → Nat) (now : Int) (dt : ℚ)
    (s : GameState) (e : SpawnEnv) (h : s.phase = PHASE_DEATH)
    (h2 : s.auto_advance_time ≤ now) :
    tick rng now dt s e = ({ s with selection := 0, phase := PHASE_MENU }, e) := by
  simp [tick, h, h2]

theorem tick_death_pending (rng : Nat → Nat) (now : Int) (dt : ℚ)
    (s : GameState) (e : SpawnEnv) (h : s.phase = PHASE_DEATH)
    (h2 : ¬ s.auto_advance_time ≤ now) :
    tick rng now dt s e = (s, e) := by
  simp [tick, h, h2]

theorem tick_game (rng : Nat → Nat) (now : Int) (dt : ℚ) (s : GameState)
    (e : SpawnEnv) (h : s.phase = PHASE_GAME) :
    tick rng now dt s e =
      (check_collisions now (difficultyStep
        { s with
            player := { s.player with
              x := movePlayer s.velocity s.player_direction dt s.player.x },
            blocks := (moveBlocks rng s.velocity dt s.blocks e).1 }),
       (moveBlocks rng s.velocity dt s.blocks e).2) := by
  simp [tick, h]

theorem tick_nongame (rng : Nat → Nat) (now : Int) (dt : ℚ) (s : GameState)
    (e : SpawnEnv) (hg : ¬ s.phase = PHASE_GAME) :
    tick rng now dt s e = (s, e) ∨
      tick rng now dt s e = ({ s with selection := 0, phase := PHASE_MENU }, e) := by
  cases hph : s.phase with
  | PHASE_MENU => exact Or.inl (tick_of_menu rng now dt s e hph)
  | PHASE_DEATH =>
    by_cases h2 : s.auto_advance_time ≤ now
    · exact Or.inr (tick_death_expired rng now dt s e hph h2)
    · exact Or.inl (tick_death_pending rng now dt s e hph h2)
  | PHASE_GAME => exact absurd hph hg

theorem tick_game_selection (rng : Nat → Nat) (now : Int) (dt : ℚ)
    (s : GameState) (e : SpawnEnv) (h : s.phase = PHASE_GAME) :
    (tick rng now dt s e).1.selection = s.selection := by
  rw [tick_game rng now dt s e h]
  rw [check_collisions_selection, difficultyStep_selection]

theorem tick_game_player_x (rng : Nat → Nat) (now : Int) (dt : ℚ)
    (s : GameState) (e : SpawnEnv) (h : s.phase = PHASE_GAME) :
    (tick rng now dt s e).1.player.x =
      movePlayer s.velocity s.player_direction dt s.player.x := by
  rw [tick_game rng now dt s e h, check_collisions_player]
  simp [difficultyStep_player]

theorem tick_velocity (rng : Nat → Nat) (now : Int) (dt : ℚ) (s : GameState)
    (e : SpawnEnv) :
    (tick rng now dt s e).1.velocity =
      if s.phase = PHASE_GAME then
        (if s.player.score > 200 then
          STARTING_VELOCITY + (s.player.score - 200) / 400 / 2
        else s.velocity)
      else s.velocity := by
  by_cases hg : s.phase = PHASE_GAME
  · rw [if_pos hg, tick_game rng now dt s e hg, check_collisions_velocity,
      difficultyStep_velocity]
  · rw [if_neg hg]
    rcases tick_nongame rng now dt s e hg with h | h <;> rw [h]

theorem tick_score_mono (rng : Nat → Nat) (now : Int) (dt : ℚ)
    (s : GameState) (e : SpawnEnv) :
    s.player.score ≤ (tick rng now dt s e).1.player.score := by
  by_cases hg : s.phase = PHASE_GAME
  · rw [tick_game rng now dt s e hg, check_collisions_player]
    simp [difficultyStep_player]
  · rcases tick_nongame rng now dt s e hg with h | h <;> rw [h]

theorem tick_game_score (rng : Nat → Nat) (now : Int) (dt : ℚ)
    (s : GameState) (e : SpawnEnv) (hg : ¬ s.phase = PHASE_GAME) :
    (tick rng now dt s e).1.player.score = s.player.score := by
  rcases tick_nongame rng now dt s e hg with h | h <;> rw [h]

/-! ### The selection field is 0 whenever the game is in play or on the
death screen -/

theorem initialise_game_selection (s : GameState) :
    (initialise_game s).selection = 0 := rfl

theorem tick_selection_inv (rng : Nat → Nat) (now : Int) (dt : ℚ)
    (s : GameState) (e : SpawnEnv)
    (hinv : s.phase = PHASE_GAME ∨ s.phase = PHASE_DEATH → s.selection = 0) :
    (tick rng now dt s e).1.phase = PHASE_GAME ∨
      (tick rng now dt s e).1.phase = PHASE_DEATH →
    (tick rng now dt s e).1.selection = 0 := by
  intro hph
  by_cases hg : s.phase = PHASE_GAME
  · rw [tick_game_selection rng now dt s e hg]
    exact hinv (Or.inl hg)
  · rcases tick_nongame rng now dt s e hg with h | h
    · rw [h] at hph ⊢
      exact hinv hph
    · rw [h] at hph
      simp at hph
  
theorem input_selection_inv (now : Int) (input : GameStateDirection)
    (s : GameState)
    (hinv : s.phase = PHASE_GAME ∨ s.phase = PHASE_DEATH → s.selection = 0) :
    (handleInputPacket now input s).phase = PHASE_GAME ∨
      (handleInputPacket now input s).phase = PHASE_DEATH →
    (handleInputPacket now input s).selection = 0 := by
  intro hph
  unfold handleInputPacket at hph ⊢
  by_cases hq : now < 1000000
  · simp only [if_pos hq] at hph ⊢
    exact hinv hph
  · simp only [if_neg hq] at hph ⊢
    by_cases hg : s.phase = PHASE_GAME
    · simp only [if_pos hg] at hph ⊢
      exact hinv (Or.inl hg)
    · simp only [if_neg hg] at hph ⊢
      by_cases hi : input ≠ DIR_NONE
      · simp only [if_pos hi] at hph ⊢
        cases hs : s.phase with
        | PHASE_MENU =>
          simp only [hs] at hph ⊢
          by_cases h2 : s.selection + 1 > 1
          · simp only [if_pos h2] at hph ⊢
            exact initialise_game_selection _
          · simp only [if_neg h2] at hph
            simp at hph
        | PHASE_DEATH =>
          simp only [hs] at hph ⊢
          by_cases h3 : now ≥ s.auto_advance_time - 4500000
          · simp only [if_pos h3] at hph
            simp at hph
          · simp only [if_neg h3] at hph ⊢
            exact hinv (Or.inr hs)
        | PHASE_GAME => exact absurd hs hg
      · simp only [if_neg hi] at hph ⊢
        exact hinv hph

theorem selection_zero_of_reachable (se : GameState × SpawnEnv)
    (h : Reachable se) :
    se.1.phase = PHASE_GAME ∨ se.1.phase = PHASE_DEATH → se.1.selection = 0 := by
  induction h with
  | boot =>
    intro hph
    rcases hph with h | h <;> simp [bootState] at h
  | tickStep rng now data se hr ih => exact tick_selection_inv _ _ _ _ _ ih
  | inputStep now input se hr ih => exact input_selection_inv _ _ _ ih

/-! ### Claim theorems -/

/-- C10: processing a Tick packet while the phase is Menu leaves every
field of the game state (and of the spawn statics) unchanged: no player
movement, no block movement or respawn, no score or velocity change, and
no phase or selection change. -/
theorem menu_tick_noop (rng : Nat → Nat) (now data : Int) (s : GameState)
    (e : SpawnEnv) (h : s.phase = PHASE_MENU) :
    handleTickPacket rng now data s e = (s, e) :=
  tick_of_menu rng now (Rat.divInt data 1000) s e h

theorem menu_tick_noop_witness :
    bootState.phase = PHASE_MENU ∧
      handleTickPacket rng0 500000 33000 bootState bootEnv =
        (bootState, bootEnv) :=
  ⟨rfl, menu_tick_noop rng0 500000 33000 bootState bootEnv rfl⟩

/-- C3: on the death screen, a Tick packet whose observation time has
reached `auto_advance_time` moves the phase to Menu and resets
`selection` to 0; a Tick observed strictly before the deadline leaves the
phase as Death. -/
theorem death_tick_auto_advance (rng : Nat → Nat) (now data : Int)
    (s : GameState) (e : SpawnEnv) (h : s.phase = PHASE_DEATH) :
    (s.auto_advance_time ≤ now →
      (handleTickPacket rng now data s e).1.phase = PHASE_MENU ∧
      (handleTickPacket rng now data s e).1.selection = 0) ∧
    (now < s.auto_advance_time →
      (handleTickPacket rng now data s e).1.phase = PHASE_DEATH) := by
  constructor
  · intro h2
    have he := tick_death_expired rng now (Rat.divInt data 1000) s e h h2
    unfold handleTickPacket
    rw [he]
    exact ⟨rfl, rfl⟩
  · intro h2
    have hp := tick_death_pending rng now (Rat.divInt data 1000) s e h
      (not_le.mpr h2)
    unfold handleTickPacket
    rw [hp]
    exact h

theorem death_tick_auto_advance_witness :
    deathQuick.phase = PHASE_DEATH ∧
    ((handleTickPacket rng0 9000000 33000 deathQuick bootEnv).1.phase =
        PHASE_MENU ∧
      (handleTickPacket rng0 9000000 33000 deathQuick bootEnv).1.selection
        = 0) ∧
    (handleTickPacket rng0 7000000 33000 deathQuick bootEnv).1.phase =
      PHASE_DEATH :=
  ⟨rfl,
   (death_tick_auto_advance rng0 9000000 33000 deathQuick bootEnv rfl).1
     (by decide),
   (death_tick_auto_advance rng0 7000000 33000 deathQuick bootEnv rfl).2
     (by decide)⟩

theorem movePlayer_bounds (vel : Int) (dir : GameStateDirection) (dt : ℚ)
    (x : Int) :
    0 ≤ movePlayer vel dir dt x ∧
      movePlayer vel dir dt x ≤ display_width - PLAYER_WIDTH := by
  unfold movePlayer
  cases dir <;>
    · simp only [display_width, PLAYER_WIDTH]
      split_ifs <;> omega

/-- C7: after the player-movement-and-clamp step of any in-game tick, the
player's x coordinate lies within `[0, display_width - PLAYER_WIDTH]`
(and nothing later in the tick moves the player again), for every tick of
any sequence processed in the Game phase. -/
theorem player_clamped_in_bounds (rng : Nat → Nat) (now : Int) (dt : ℚ)
    (s : GameState) (e : SpawnEnv) (h : s.phase = PHASE_GAME) :
    0 ≤ (tick rng now dt s e).1.player.x ∧
    (tick rng now dt s e).1.player.x ≤ display_width - PLAYER_WIDTH := by
  rw [tick_game_player_x rng now dt s e h]
  exact movePlayer_bounds s.velocity s.player_direction dt s.player.x

theorem player_clamped_in_bounds_witness :
    sessionStart.phase = PHASE_GAME ∧
    (0 ≤ (tick rng0 2000000 33 sessionStart bootEnv).1.player.x ∧
      (tick rng0 2000000 33 sessionStart bootEnv).1.player.x ≤
        display_width - PLAYER_WIDTH) :=
  ⟨by decide,
   player_clamped_in_bounds rng0 2000000 33 sessionStart bootEnv (by decide)⟩

/-- C8: the displacement function of the physics engine equals
`ceil(v * dt / 1000)`, is non-negative for `v, dt ≥ 0`, and is zero when
`dt = 0`. -/
theorem displacement_ceil_nonneg (v : Int) (dt : ℚ) (hv : 0 ≤ v)
    (hdt : 0 ≤ dt) :
    calc_velocity v dt = ⌈(v : ℚ) * dt / 1000⌉ ∧
    0 ≤ calc_velocity v dt ∧ calc_velocity v 0 = 0 := by
  refine ⟨?_, ?_, ?_⟩
  · rw [calc_velocity_eq_ceil, mul_div_assoc]
  · rw [calc_velocity_eq_ceil]
    exact Int.ceil_nonneg
      (mul_nonneg (by exact_mod_cast hv) (div_nonneg hdt (by norm_num)))
  · rw [calc_velocity_eq_ceil]
    simp

theorem displacement_ceil_nonneg_witness :
    calc_velocity 3 7 = ⌈((3 : Int) : ℚ) * 7 / 1000⌉ ∧
    0 ≤ calc_velocity 3 7 ∧ calc_velocity 3 0 = 0 :=
  displacement_ceil_nonneg 3 7 (by norm_num) (by norm_num)

/-- C9: the collision predicate is inclusive at boundaries: rectangles
that merely touch without overlapping in area (some pair of opposite
edges coincide while the closed rectangles still intersect) are reported
as colliding (result 1). -/
theorem collision_inclusive_boundaries (p : Player) (b : GameBlock)
    (h1 : p.x ≤ b.x + BLOCK_WIDTH) (h2 : b.x ≤ p.x + PLAYER_WIDTH)
    (h3 : p.y ≤ b.y + BLOCK_HEIGHT) (h4 : b.y ≤ p.y + PLAYER_HEIGHT)
    (htouch : p.x + PLAYER_WIDTH = b.x ∨ p.x = b.x + BLOCK_WIDTH ∨
      p.y + PLAYER_HEIGHT = b.y ∨ p.y = b.y + BLOCK_HEIGHT) :
    check_player_collision p b = 1 := by
  simp only [BLOCK_WIDTH, PLAYER_WIDTH, BLOCK_HEIGHT, PLAYER_HEIGHT]
    at h1 h2 h3 h4
  unfold check_player_collision
  split
  · rename_i hcond
    simp only [BLOCK_WIDTH, PLAYER_WIDTH, BLOCK_HEIGHT, PLAYER_HEIGHT]
      at hcond
    rcases hcond with h | h | h | h <;> omega
  · rfl

theorem collision_inclusive_boundaries_witness :
    check_player_collision { x := 0, y := 0, score := 0 }
      { x := 20, y := 5, enabled := true, waiting_for_respawn := false }
      = 1 :=
  collision_inclusive_boundaries _ _ (by decide) (by decide) (by decide)
    (by decide) (Or.inl (by decide))

/-- C2: a block that is enabled, not awaiting respawn, and overlapping
the player when the collision check of a tick examines the block pool
forces the phase to Death on that tick, with the auto-advance deadline
armed to `now + DEATH_SCREEN_DELAY`. -/
theorem collision_forces_death (now : Int) (s : GameState) (b : GameBlock)
    (hph : s.phase = PHASE_GAME) (hmem : b ∈ s.blocks)
    (hen : b.enabled = true) (hwait : b.waiting_for_respawn = false)
    (hcol : check_player_collision s.player b = 1) :
    (check_collisions now s).phase = PHASE_DEATH ∧
    (check_collisions now s).auto_advance_time = now + DEATH_SCREEN_DELAY := by
  have hany : s.blocks.any (collidesB s.player) = true := by
    rw [List.any_eq_true]
    exact ⟨b, hmem, by simp [collidesB, hen, hwait, hcol]⟩
  constructor
  · rw [check_collisions_phase, if_pos hany]
  · rw [check_collisions_aat, if_pos hany]

theorem collision_forces_death_witness :
    (check_collisions 3000000 c2State).phase = PHASE_DEATH ∧
    (check_collisions 3000000 c2State).auto_advance_time =
      3000000 + DEATH_SCREEN_DELAY :=
  collision_forces_death 3000000 c2State
    { x := 57, y := 215, enabled := true, waiting_for_respawn := false }
    rfl (by decide) rfl rfl (by decide)

/-- C5: the collision check marks exactly the enabled, non-awaiting,
non-colliding blocks whose top edge has passed the bottom of the display
as awaiting respawn, and adds 100 points for each of them, once; the
`scoresB` predicate excludes any block that collides this tick (collision
is decided first per block and is exclusive with scoring), and a marked
block cannot score again while it awaits respawn. -/
theorem scoring_marks_and_increments (now : Int) (s : GameState) :
    (check_collisions now s).player.score =
      s.player.score + 100 * (s.blocks.countP (scoresB s.player) : Int) ∧
    (check_collisions now s).blocks =
      s.blocks.map fun b =>
        if scoresB s.player b then { b with waiting_for_respawn := true }
        else b := by
  refine ⟨?_, check_collisions_blocks now s⟩
  rw [check_collisions_player]

/-- C6: for an enabled block awaiting respawn, `respawn_block` proceeds
exactly when the `respawn_allowed` guard holds (no recorded prior spawn,
or the prior spawn is disabled or itself awaiting respawn, or the prior
spawn has fallen beyond the minimum clearance below the top); when it
proceeds, the block is placed at `y = -BLOCK_HEIGHT`, its x is drawn in
`[0, display_width - BLOCK_WIDTH)`, `awaiting_respawn` is cleared, and
the block becomes the recorded most-recent spawn; otherwise nothing
changes. -/
theorem respawn_guard_and_placement (rng : Nat → Nat)
    (bs : List GameBlock) (e : SpawnEnv) (i : Nat)
    (hen : (bs.getD i default).enabled = true)
    (hwait : (bs.getD i default).waiting_for_respawn = true) :
    (respawn_allowed bs e.last_spawned = true →
      respawn_block rng bs e i =
        (bs.set i { bs.getD i default with
            y := -BLOCK_HEIGHT,
            x := (rng e.rand_idx : Int) % (display_width - BLOCK_WIDTH),
            waiting_for_respawn := false },
         { last_spawned := some i, rand_idx := e.rand_idx + 1 }) ∧
      0 ≤ (rng e.rand_idx : Int) % (display_width - BLOCK_WIDTH) ∧
      (rng e.rand_idx : Int) % (display_width - BLOCK_WIDTH) <
        display_width - BLOCK_WIDTH) ∧
    (respawn_allowed bs e.last_spawned = false →
      respawn_block rng bs e i = (bs, e)) := by
  constructor
  · intro ha
    refine ⟨?_, ?_, ?_⟩
    · simp only [respawn_block]
      rw [if_neg (by simpa using hen), if_pos ha]
    · exact Int.emod_nonneg _ (by norm_num [display_width, BLOCK_WIDTH])
    · exact Int.emod_lt_of_pos _ (by norm_num [display_width, BLOCK_WIDTH])
  · intro ha
    simp only [respawn_block]
    rw [if_neg (by simpa using hen), if_neg (by simp [ha])]

theorem respawn_guard_and_placement_witness :
    respawn_allowed c6Blocks bootEnv.last_spawned = true ∧
    (respawn_block rng0 c6Blocks bootEnv 0 =
      (c6Blocks.set 0 { c6Blocks.getD 0 default with
          y := -BLOCK_HEIGHT,
          x := (rng0 bootEnv.rand_idx : Int) % (display_width - BLOCK_WIDTH),
          waiting_for_respawn := false },
       { last_spawned := some 0, rand_idx := bootEnv.rand_idx + 1 }) ∧
      0 ≤ (rng0 bootEnv.rand_idx : Int) % (display_width - BLOCK_WIDTH) ∧
      (rng0 bootEnv.rand_idx : Int) % (display_width - BLOCK_WIDTH) <
        display_width - BLOCK_WIDTH) :=
  ⟨rfl, (respawn_guard_and_placement rng0 c6Blocks bootEnv 0 rfl rfl).1 rfl⟩

/-- C1 (amended): within a session the velocity is monotonically
non-decreasing across ticks and never drops below `STARTING_VELOCITY`:
`initialise_game` establishes the `VelocityInv` invariant and every tick
preserves it while never decreasing the velocity.  (The claim's
`MAX_VELOCITY` cap does not hold — see the counterexample — so the upper
bound in `VelocityInv` is the difficulty formula itself, which is
unbounded in the score.) -/
theorem velocity_monotone_floored :
    (∀ s, VelocityInv (initialise_game s)) ∧
    (∀ (rng : Nat → Nat) (now : Int) (dt : ℚ) (s : GameState)
      (e : SpawnEnv), VelocityInv s →
        VelocityInv (tick rng now dt s e).1 ∧
        STARTING_VELOCITY ≤ (tick rng now dt s e).1.velocity ∧
        s.velocity ≤ (tick rng now dt s e).1.velocity) := by
  constructor
  · intro s
    exact ⟨le_refl 0, fun _ => rfl,
      fun h => absurd h (by show ¬(200 : Int) < 0; decide)⟩
  · intro rng now dt s e hinv
    obtain ⟨hs0, hle, hgt⟩ := hinv
    have hvel := tick_velocity rng now dt s e
    have hsc := tick_score_mono rng now dt s e
    by_cases hg : s.phase = PHASE_GAME
    · rw [if_pos hg] at hvel
      by_cases h200 : s.player.score > 200
      · rw [if_pos h200] at hvel
        have hd0 : 0 ≤ (s.player.score - 200) / 400 / 2 :=
          Int.ediv_nonneg (Int.ediv_nonneg (by omega) (by norm_num))
            (by norm_num)
        have hub := (hgt h200).2
        refine ⟨⟨by omega, by omega, ?_⟩, by omega, by omega⟩
        intro h200'
        have h1 : (s.player.score - 200) / 400 ≤
            ((tick rng now dt s e).1.player.score - 200) / 400 :=
          Int.ediv_le_ediv (by norm_num) (by omega)
        have h2 : (s.player.score - 200) / 400 / 2 ≤
            ((tick rng now dt s e).1.player.score - 200) / 400 / 2 :=
          Int.ediv_le_ediv (by norm_num) h1
        constructor
        · omega
        · omega
      · rw [if_neg h200] at hvel
        have hv25 : s.velocity = STARTING_VELOCITY := hle (by omega)
        refine ⟨⟨by omega, ?_, ?_⟩, by omega, by omega⟩
        · intro h'
          omega
        · intro h200'
          have hd0 : 0 ≤ ((tick rng now dt s e).1.player.score - 200)
              / 400 / 2 :=
            Int.ediv_nonneg (Int.ediv_nonneg (by omega) (by norm_num))
              (by norm_num)
          constructor
          · omega
          · omega
    · have hveq : (tick rng now dt s e).1.velocity = s.velocity := by
        rw [hvel, if_neg hg]
      have hsceq := tick_game_score rng now dt s e hg
      have hfloor : STARTING_VELOCITY ≤ s.velocity := by
        by_cases h2 : s.player.score ≤ 200
        · rw [hle h2]
        · exact (hgt (by omega)).1
      refine ⟨⟨by omega, ?_, ?_⟩, by omega, by omega⟩
      · intro h'
        rw [hveq]
        exact hle (by omega)
      · intro h'
        rw [hveq, hsceq]
        exact hgt (by omega)

theorem velocity_monotone_floored_witness :
    VelocityInv sessionStart ∧
    (VelocityInv (tick rng0 2000000 100 sessionStart bootEnv).1 ∧
      STARTING_VELOCITY ≤
        (tick rng0 2000000 100 sessionStart bootEnv).1.velocity ∧
      sessionStart.velocity ≤
        (tick rng0 2000000 100 sessionStart bootEnv).1.velocity) :=
  have hinv : VelocityInv sessionStart :=
    ⟨by decide, fun _ => by decide, fun h => absurd h (by decide)⟩
  ⟨hinv, velocity_monotone_floored.2 rng0 2000000 100 sessionStart bootEnv
    hinv⟩

set_option maxRecDepth 8000 in
/-- C1 (counterexample): the code never applies the `MAX_VELOCITY` cap:
starting a fresh session from the menu and processing 47 Tick packets
(each carrying a 100-second delta, so that every enabled block crosses
the field and scores each tick) drives the score past 61000, at which
point the difficulty-scaling step of `tick` sets the velocity to 101,
strictly above `MAX_VELOCITY = 100`. -/
theorem velocity_exceeds_max_counterexample :
    MAX_VELOCITY < ((tickBig^[47]) (sessionStart, bootEnv)).1.velocity := by
  decide

/-- C4: on the death screen of any reachable state, a directional input
delivered before the accept-window guard (`auto_advance_time - 4.5e6`,
i.e. 500 ms after the death was armed) is ignored and the phase stays
Death; a directional input delivered once the guard has elapsed returns
to the Menu with `selection = 0`.  (The `1000000 ≤ now` hypothesis is
the start-up quiet window: the handler unconditionally discards inputs
in the first second of runtime, and any reachable death screen postdates
the game-starting input, which itself must arrive after that window.) -/
theorem death_input_guard (s : GameState) (e : SpawnEnv) (now : Int)
    (input : GameStateDirection) (hr : Reachable (s, e))
    (hph : s.phase = PHASE_DEATH) (hin : input ≠ DIR_NONE)
    (hq : 1000000 ≤ now) :
    (now < s.auto_advance_time - 4500000 →
      handleInputPacket now input s = s ∧
      (handleInputPacket now input s).phase = PHASE_DEATH) ∧
    (s.auto_advance_time - 4500000 ≤ now →
      (handleInputPacket now input s).phase = PHASE_MENU ∧
      (handleInputPacket now input s).selection = 0) := by
  have hsel : s.selection = 0 :=
    selection_zero_of_reachable (s, e) hr (Or.inr hph)
  have hng : ¬ s.phase = PHASE_GAME := by simp [hph]
  constructor
  · intro hlt
    have heq : handleInputPacket now input s = s := by
      unfold handleInputPacket
      rw [if_neg (not_lt.mpr hq), if_neg hng, if_pos hin]
      simp only [hph]
      rw [if_neg (not_le.mpr hlt)]
    exact ⟨heq, by rw [heq, hph]⟩
  · intro hge
    unfold handleInputPacket
    rw [if_neg (not_lt.mpr hq), if_neg hng, if_pos hin]
    simp only [hph]
    rw [if_pos hge]
    exact ⟨rfl, hsel⟩

theorem reachable_deathSE : Reachable deathSE := by
  have h0 : Reachable (bootState, bootEnv) := Reachable.boot
  have h1 : Reachable (menuPressed, bootEnv) :=
    Reachable.inputStep 1500000 DIR_LEFT (bootState, bootEnv) h0
  have h2 : Reachable (sessionStart, bootEnv) :=
    Reachable.inputStep 1600000 DIR_LEFT (menuPressed, bootEnv) h1
  exact Reachable.tickStep rng57 3000000 9000000 (sessionStart, bootEnv) h2

theorem death_input_guard_witness :
    (handleInputPacket 2000000 DIR_LEFT deathSE.1 = deathSE.1 ∧
      (handleInputPacket 2000000 DIR_LEFT deathSE.1).phase = PHASE_DEATH) ∧
    ((handleInputPacket 4000000 DIR_LEFT deathSE.1).phase = PHASE_MENU ∧
      (handleInputPacket 4000000 DIR_LEFT deathSE.1).selection = 0) :=
  ⟨(death_input_guard deathSE.1 deathSE.2 2000000 DIR_LEFT reachable_deathSE
      (by decide) (by decide) (by decide)).1 (by decide),
   (death_input_guard deathSE.1 deathSE.2 4000000 DIR_LEFT reachable_deathSE
      (by decide) (by decide) (by decide)).2 (by decide)⟩
